import Mathlib

/-!
Verification development for the agri-patrol-bot repository.

The repository's streaming core lives in src/app.py: class CameraManager (a
lock-protected single-slot latest-frame buffer written by a capture thread),
the MJPEG generator generate_frames, and the Flask handler control_robot.
src/SimpleCamStreamer.py contains a second, simpler MJPEG generator.

Shallow embedding conventions:
  - An image (numpy ndarray) is a RawFrame: row/column counts, a flat list
    of byte values, and the list of text overlays drawn onto it by
    cv2.putText (text rendering itself is external to the repository, so an
    overlay is recorded rather than rasterised).
  - cv2.imencode is modelled as succeeding exactly on non-empty images
    (its failure mode on this code path), producing an abstract JPEG byte
    payload.
  - Lock-protected critical sections (the capture thread's
    `with self.lock: self.frame = ...` and get_frame's locked read) are
    modelled as atomic transitions: under mutual exclusion no torn
    intermediate state is observable, so each reader sees the buffer after
    some prefix of the publishes.
  - The capture loops are folds over a trace of per-iteration outcomes;
    the concurrently-mutated `self.running` flag is a Boolean schedule
    indexed by iteration number.
-/

/-- Byte sequence of a Python byte-string literal: the code points of its
characters (all literals in the source are ASCII). -/
def strBytes (s : String) : List Nat :=
  s.data.map Char.toNat

/-- A numpy image array as passed around by src/app.py: shape (rows, cols, 3),
flat pixel byte data, plus the list of strings cv2.putText has drawn on it. -/
structure RawFrame where
  rows : Nat
  cols : Nat
  data : List Nat
  overlays : List String
  deriving DecidableEq

/-- cv2.putText draws string s onto the image in place; the pixel geometry is
unchanged and the text becomes part of the picture. -/
def putText (f : RawFrame) (s : String) : RawFrame :=
  { f with overlays := f.overlays ++ [s] }

/-- Abstract JPEG payload of an image: the JPEG start-of-image marker bytes
followed by the pixel data (stand-in for the actual entropy coding, which is
external to the repository). -/
def jpegBytes (f : RawFrame) : List Nat :=
  255 :: 216 :: f.data

/-- cv2.imencode as used at src/app.py line 180: returns (ret, buffer); ret is
False exactly when the input image is empty, otherwise the JPEG bytes. -/
def imencode (f : RawFrame) : Option (List Nat) :=
  if 0 < f.rows ∧ 0 < f.cols then some (jpegBytes f) else none

/-- Swap the first and third channel of each 3-byte pixel (RGB to BGR). -/
def swapBGR : List Nat → List Nat
  | r :: g :: b :: rest => b :: g :: r :: swapBGR rest
  | l => l

/-- cv2.cvtColor with COLOR_RGB2BGR (src/app.py line 103). -/
def cvtColor (f : RawFrame) : RawFrame :=
  { f with data := swapBGR f.data }

/-- ndarray.copy (src/app.py line 135): a fresh array with the same contents. -/
def frameCopy (f : RawFrame) : RawFrame :=
  ⟨f.rows, f.cols, f.data, f.overlays⟩

/-- State of class CameraManager (src/app.py lines 33-41): the `running` flag,
the camera device handle (present or None), and the single latest-frame slot
guarded by `self.lock`.  `releaseCount` is a ghost field counting how many
times the underlying device's release/stop method has been invoked. -/
structure CameraManager where
  running : Bool
  camera : Option Unit
  frame : Option RawFrame
  releaseCount : Nat
  deriving DecidableEq

/-- CameraManager.__init__ (src/app.py lines 36-40): camera None, running
False, frame None. -/
def CameraManager.init : CameraManager :=
  ⟨false, none, none, 0⟩

/-- The capture threads' `with self.lock: self.frame = frame` (src/app.py
lines 106-107 and 121-122), one atomic lock-protected store. -/
def CameraManager.publish (m : CameraManager) (f : RawFrame) : CameraManager :=
  { m with frame := some f }

/-- CameraManager.get_frame (src/app.py lines 131-136): under the lock, return
a copy of the stored frame, or None when no frame has been stored. -/
def CameraManager.get_frame (m : CameraManager) : Option RawFrame :=
  m.frame.map frameCopy

/-- CameraManager.stop (src/app.py lines 138-152): clear the running flag,
then, when the camera handle is not None, invoke the device's stop/release
(in the picamera2 branch any device exception is swallowed by
`except: pass`; in the OpenCV branch `release()` does not raise).  The
camera handle is never cleared. -/
def CameraManager.stop (m : CameraManager) : CameraManager :=
  let m1 : CameraManager := { m with running := false }
  if m1.camera.isSome then { m1 with releaseCount := m1.releaseCount + 1 } else m1

/-- A sequence of publishes into the frame slot, each one an atomic
lock-protected store. -/
def publishAll (m : CameraManager) (fs : List RawFrame) : CameraManager :=
  fs.foldl CameraManager.publish m

/-- One iteration's outcome inside CameraManager._capture_opencv (src/app.py
lines 115-129): `self.camera.read()` returned (True, frame), returned
ret == False, or raised an exception. -/
inductive CapResult
  | ok (f : RawFrame)
  | readFail
  | exn
  deriving DecidableEq

/-- Whether an iteration outcome is a successful read. -/
def capOk : CapResult → Bool
  | .ok _ => true
  | _ => false

/-- Body of one _capture_opencv iteration (src/app.py lines 118-129): a
successful read publishes the frame; ret == False logs and sleeps 0.1s; an
exception is caught, logged, and the loop sleeps 0.1s.  In every case the
loop proceeds; the frame slot changes only on success. -/
def capture_opencv_step (m : CameraManager) : CapResult → CameraManager
  | .ok f => m.publish f
  | .readFail => m
  | .exn => m

/-- One iteration's outcome inside CameraManager._capture_picamera2
(src/app.py lines 95-113): capture_array() returned a frame, or some call in
the body raised. -/
inductive PicamResult
  | ok (f : RawFrame)
  | exn
  deriving DecidableEq

/-- Whether a picamera2 iteration outcome is a successful capture. -/
def picamOk : PicamResult → Bool
  | .ok _ => true
  | _ => false

/-- Body of one _capture_picamera2 iteration (src/app.py lines 98-113): a
captured frame is converted RGB→BGR and published; an exception is caught,
logged, and the loop sleeps 0.1s and proceeds. -/
def capture_picamera2_step (m : CameraManager) : PicamResult → CameraManager
  | .ok f => m.publish (cvtColor f)
  | .exn => m

/-- The capture loop run to completion of a finite outcome trace with the
running flag held true throughout. -/
def capture_opencv_run (m : CameraManager) (rs : List CapResult) : CameraManager :=
  rs.foldl capture_opencv_step m

/-- The picamera2 capture loop run over a finite outcome trace. -/
def capture_picamera2_run (m : CameraManager) (ps : List PicamResult) : CameraManager :=
  ps.foldl capture_picamera2_step m

/-- `while self.running:` loop shape shared by both capture threads: before
each iteration the (concurrently mutable) running flag is read; `running` is
the schedule of its values by iteration index, `i` the current index.  When
the flag reads false the loop exits at once; otherwise the iteration body
(step) runs on that iteration's outcome. -/
def capture_loop {α : Type} (step : CameraManager → α → CameraManager)
    (running : Nat → Bool) : CameraManager → List α → Nat → CameraManager
  | m, [], _ => m
  | m, r :: rest, i =>
    if running i then capture_loop step running (step m r) rest (i + 1) else m

/-- CameraManager._capture_opencv with its running-flag check (src/app.py
line 117). -/
def capture_opencv_loop (running : Nat → Bool) (m : CameraManager)
    (rs : List CapResult) (i : Nat) : CameraManager :=
  capture_loop capture_opencv_step running m rs i

/-- CameraManager._capture_picamera2 with its running-flag check (src/app.py
line 97). -/
def capture_picamera2_loop (running : Nat → Bool) (m : CameraManager)
    (ps : List PicamResult) (i : Nat) : CameraManager :=
  capture_loop capture_picamera2_step running m ps i

/-- The global robot_position dict (src/app.py line 29), coordinates in
percent. -/
structure RobotPosition where
  x : Int
  y : Int
  deriving DecidableEq

/-- Initial value at src/app.py line 29. -/
def robot_position : RobotPosition :=
  ⟨50, 50⟩

/-- What one generate_frames iteration reads from the surrounding state
(src/app.py lines 161-177): the buffer snapshot returned by get_frame(),
the current timestamp string, and the global robot position. -/
structure IterInput where
  buf : Option RawFrame
  timestamp : String
  robot : RobotPosition
  deriving DecidableEq

def camNotAvailText : String := "Camera Not Available"

def robotTextOpen : String := "Robot: ("

def commaSep : String := ", "

def robotTextClose : String := ")"

/-- The f-string at src/app.py line 175. -/
def posText (p : RobotPosition) : String :=
  robotTextOpen ++ toString p.x ++ commaSep ++ toString p.y ++ robotTextClose

/-- np.zeros((480, 640, 3), dtype=np.uint8) at src/app.py line 165: a solid
black 640x480 image. -/
def blackFrame : RawFrame :=
  ⟨480, 640, List.replicate (480 * 640 * 3) 0, []⟩

/-- The frame one generate_frames iteration sends to the encoder (src/app.py
lines 161-177): the buffered frame, or the black placeholder with the
"Camera Not Available" overlay when the buffer is empty; then the timestamp
and robot-position overlays are drawn on. -/
def processedFrame (inp : IterInput) : RawFrame :=
  let f := match inp.buf with
    | none => putText blackFrame camNotAvailText
    | some fr => fr
  putText (putText f inp.timestamp) (posText inp.robot)

def crlfText : String := "\r\n"

def boundaryText : String := "--frame"

def ctypeText : String := "Content-Type: image/jpeg"

/-- The byte-string literal prefixing every part, b'--frame\r\n'
b'Content-Type: image/jpeg\r\n\r\n' (src/app.py lines 188-189 and
src/SimpleCamStreamer.py lines 68-69). -/
def partHeadText : String := "--frame\r\nContent-Type: image/jpeg\r\n\r\n"

/-- One yielded multipart part (src/app.py lines 188-189,
src/SimpleCamStreamer.py lines 68-69): the fixed head, the JPEG bytes, a
trailing CRLF. -/
def mkPart (jpeg : List Nat) : List Nat :=
  strBytes partHeadText ++ jpeg ++ strBytes crlfText

/-- One iteration of generate_frames in src/app.py (lines 160-191): build the
frame to send, JPEG-encode it; when ret is False the iteration `continue`s
yielding nothing, otherwise it yields one multipart part. -/
def genIter (inp : IterInput) : Option (List Nat) :=
  match imencode (processedFrame inp) with
  | none => none
  | some jpeg => some (mkPart jpeg)

/-- generate_frames in src/app.py (lines 158-191) run over a finite list of
per-iteration inputs: the sequence of parts it yields. -/
def generate_frames (inputs : List IterInput) : List (List Nat) :=
  inputs.filterMap genIter

namespace SimpleCamStreamer

/-- generate_frames in src/SimpleCamStreamer.py (lines 56-75) run over the
finite list of JPEG captures preceding any exception: each capture yields one
multipart part of the same shape as app.py's. -/
def generate_frames (frames : List (List Nat)) : List (List Nat) :=
  frames.map mkPart

end SimpleCamStreamer

/-- A JSON value as relevant to control_robot: a number (modelled as an
integer), a string, or anything else (null, list, dict, ...) whose comparison
against an int in min/max raises TypeError. -/
inductive JVal
  | num (n : Int)
  | str (s : String)
  | other
  deriving DecidableEq

/-- The parsed JSON body of a POST /api/robot/control request: the values at
keys 'command', 'x' and 'y', each possibly absent. -/
structure ControlRequest where
  command : Option JVal
  x : Option JVal
  y : Option JVal
  deriving DecidableEq

/-- Outcome of request.get_json() plus the dict lookups: either the body is
unusable (unparseable JSON or not a JSON object, so an exception is raised
before anything else happens), or a dict of values. -/
inductive ReqBody
  | badJson
  | req (r : ControlRequest)
  deriving DecidableEq

/-- What the handler returns together with the position state it leaves
behind: the new robot_position, the HTTP status, and the JSON success flag. -/
structure ControlResult where
  pos : RobotPosition
  status : Nat
  success : Bool
  deriving DecidableEq

def moveText : String := "move"

/-- The `command == 'move'` test (src/app.py line 249): only the exact string
compares equal. -/
def isMove : Option JVal → Bool
  | some (.str s) => s == moveText
  | _ => false

/-- Whether a JSON value is a number (min/max against an int succeeds). -/
def isNum : JVal → Bool
  | .num _ => true
  | _ => false

/-- max(0, min(100, v)) (src/app.py lines 254-255). -/
def clamp (v : Int) : Int :=
  max 0 (min 100 v)

/-- control_robot (src/app.py lines 240-272), faithful to evaluation order:
on a 'move' command, x and y are fetched with default 50; then
`robot_position['x'] = max(0, min(100, x))` runs first — if x is not a
number the TypeError fires before any assignment (caught, 500); if x is a
number the x coordinate is stored, and only then is y clamped — a
non-numeric y raises after x has already been updated (caught, 500).  Any
other command returns 400; an unusable body raises immediately (500).  The
except-branches never touch robot_position themselves. -/
def control_robot (pos : RobotPosition) : ReqBody → ControlResult
  | .badJson => ⟨pos, 500, false⟩
  | .req rq =>
    if isMove rq.command then
      match rq.x.getD (.num 50), rq.y.getD (.num 50) with
      | .num xn, .num yn => ⟨⟨clamp xn, clamp yn⟩, 200, true⟩
      | .num xn, _ => ⟨⟨clamp xn, pos.y⟩, 500, false⟩
      | _, _ => ⟨pos, 500, false⟩
    else ⟨pos, 400, false⟩

/-- The position invariant of claim C9. -/
def inBounds (p : RobotPosition) : Prop :=
  0 ≤ p.x ∧ p.x ≤ 100 ∧ 0 ≤ p.y ∧ p.y ≤ 100

/-- A copy of an ndarray has the same contents. -/
theorem frameCopy_eq (f : RawFrame) : frameCopy f = f := rfl

/-- Folding publishes: step equation. -/
theorem publishAll_cons (m : CameraManager) (f : RawFrame) (rest : List RawFrame) :
    publishAll m (f :: rest) = publishAll (m.publish f) rest := rfl

/-- After any sequence of publishes, the frame slot holds either what it held
before or one of the published frames. -/
theorem publishAll_frame (fs : List RawFrame) : ∀ m : CameraManager,
    (publishAll m fs).frame = m.frame ∨ ∃ f ∈ fs, (publishAll m fs).frame = some f := by
  induction fs with
  | nil => intro m; exact Or.inl rfl
  | cons f rest ih =>
    intro m
    rcases ih (m.publish f) with h | hex
    · right
      refine ⟨f, List.mem_cons_self f rest, ?_⟩
      rw [publishAll_cons, h]
      rfl
    · rcases hex with ⟨g, hg, h⟩
      right
      exact ⟨g, List.mem_cons_of_mem f hg, by rw [publishAll_cons]; exact h⟩

/-- C1: the frame slot is written only inside `with self.lock` (one atomic
store per captured frame) and get_frame reads it under the same lock, so a
get_frame call concurrent with a sequence of publishes observes the buffer
after some prefix `pre` of the full publish sequence `pre ++ suf`.  Its
result is then either None (no publish yet) or a copy of one of the
published frames — never a mixture of two frames' bytes, since no partially
written state exists under mutual exclusion. -/
theorem c1_get_frame_returns_published : ∀ pre suf : List RawFrame,
    CameraManager.get_frame (publishAll CameraManager.init pre) = none
    ∨ ∃ f ∈ pre ++ suf,
        CameraManager.get_frame (publishAll CameraManager.init pre) = some f := by
  intro pre suf
  rcases publishAll_frame pre CameraManager.init with h | hex
  · left
    unfold CameraManager.get_frame
    rw [h]
    rfl
  · rcases hex with ⟨f, hf, h⟩
    right
    refine ⟨f, List.mem_append_left suf hf, ?_⟩
    simp [CameraManager.get_frame, h, frameCopy_eq]

/-- C5: get_frame immediately after a single publish returns a copy equal to
the published frame — exactly its bytes. -/
theorem c5_get_after_publish : ∀ (m : CameraManager) (f : RawFrame),
    CameraManager.get_frame (CameraManager.publish m f) = some f := by
  intro m f
  simp [CameraManager.get_frame, CameraManager.publish, frameCopy_eq]

/-- C2 counterexample: stop() never clears `self.camera`, so a second stop()
finds the handle still present and invokes the device's release/stop a
second time — the device method runs twice, not exactly once, and the second
call is not a no-op with respect to the device. -/
theorem c2_cex_double_stop_releases_twice :
    (CameraManager.stop (CameraManager.stop ⟨true, some (), none, 0⟩)).releaseCount = 2
    ∧ ¬ (CameraManager.stop
          (CameraManager.stop ⟨true, some (), none, 0⟩)).releaseCount = 1 := by
  decide

/-- C2 amended: calling stop() twice produces no error (the picamera2 branch
swallows device exceptions and the OpenCV release does not raise), and each
of the two calls invokes the device's release/stop once — twice in total,
because the camera handle is never cleared; the running flag ends false and
the handle is unchanged.  Safety of the double call rests on the device's
own release being harmless to repeat, not on the manager releasing exactly
once. -/
theorem c2_amended_stop_releases_each_call (m : CameraManager)
    (h : m.camera.isSome = true) :
    (CameraManager.stop (CameraManager.stop m)).releaseCount = m.releaseCount + 2
    ∧ (CameraManager.stop (CameraManager.stop m)).running = false
    ∧ (CameraManager.stop (CameraManager.stop m)).camera = m.camera := by
  obtain ⟨r, c, f, k⟩ := m
  cases c with
  | none => simp at h
  | some u => simp [CameraManager.stop]

/-- C2 amended, concrete witness: a started manager with an open device. -/
theorem c2_amended_witness :
    ((⟨true, some (), none, 0⟩ : CameraManager)).camera.isSome = true
    ∧ ((CameraManager.stop
          (CameraManager.stop (⟨true, some (), none, 0⟩ : CameraManager))).releaseCount
          = (⟨true, some (), none, 0⟩ : CameraManager).releaseCount + 2
       ∧ (CameraManager.stop
            (CameraManager.stop (⟨true, some (), none, 0⟩ : CameraManager))).running = false
       ∧ (CameraManager.stop
            (CameraManager.stop (⟨true, some (), none, 0⟩ : CameraManager))).camera
          = (⟨true, some (), none, 0⟩ : CameraManager).camera) :=
  ⟨by decide, c2_amended_stop_releases_each_call ⟨true, some (), none, 0⟩ (by decide)⟩

/-- With the running flag true at every check, the capture loop processes the
whole outcome trace. -/
theorem capture_loop_always_true {α : Type} (step : CameraManager → α → CameraManager) :
    ∀ (rs : List α) (m : CameraManager) (i : Nat),
      capture_loop step (fun _ => true) m rs i = rs.foldl step m := by
  intro rs
  induction rs with
  | nil => intro m i; rfl
  | cons r rest ih =>
    intro m i
    simpa [capture_loop] using ih (step m r) (i + 1)

/-- Iterations whose step is the identity on failing outcomes can be dropped
from the fold. -/
theorem foldl_skip_failures {α : Type} (step : CameraManager → α → CameraManager)
    (ok : α → Bool) (hskip : ∀ (m : CameraManager) (r : α), ok r = false → step m r = m) :
    ∀ (rs : List α) (m : CameraManager),
      rs.foldl step m = (rs.filter ok).foldl step m := by
  intro rs
  induction rs with
  | nil => intro m; rfl
  | cons r rest ih =>
    intro m
    by_cases hok : ok r = true
    · simp only [List.filter_cons, hok, if_true, List.foldl_cons]
      exact ih (step m r)
    · have hf : ok r = false := by simpa using hok
      simp only [List.filter_cons, hf, Bool.false_eq_true, if_false, List.foldl_cons,
        hskip m r hf]
      exact ih m

/-- A failed read (ret == False) leaves the manager unchanged. -/
theorem capture_opencv_step_skip (m : CameraManager) (r : CapResult)
    (h : capOk r = false) : capture_opencv_step m r = m := by
  cases r with
  | ok f => simp [capOk] at h
  | readFail => rfl
  | exn => rfl

/-- A caught exception leaves the manager unchanged in the picamera2 loop. -/
theorem capture_picamera2_step_skip (m : CameraManager) (p : PicamResult)
    (h : picamOk p = false) : capture_picamera2_step m p = m := by
  cases p with
  | ok f => simp [picamOk] at h
  | exn => rfl

/-- C7: in both capture loops, a per-iteration failure (a read returning
ret == False, or an exception caught by the iteration's except-handler) is
absorbed locally: the step is the identity on the shared state, and the loop
run with the running flag true throughout over the full trace equals the run
over only the successful captures — every iteration after a failure is still
processed, no failure terminates the loop, and the step functions are total
(failures produce a log and a short sleep, never a value that could reach a
client). -/
theorem c7_capture_failures_recovered :
    (∀ m : CameraManager,
        capture_opencv_step m CapResult.readFail = m
        ∧ capture_opencv_step m CapResult.exn = m
        ∧ capture_picamera2_step m PicamResult.exn = m)
    ∧ (∀ (m : CameraManager) (rs : List CapResult),
        capture_opencv_loop (fun _ => true) m rs 0
          = capture_opencv_run m (rs.filter capOk))
    ∧ (∀ (m : CameraManager) (ps : List PicamResult),
        capture_picamera2_loop (fun _ => true) m ps 0
          = capture_picamera2_run m (ps.filter picamOk)) := by
  refine ⟨fun m => ⟨rfl, rfl, rfl⟩, ?_, ?_⟩
  · intro m rs
    unfold capture_opencv_loop capture_opencv_run
    rw [capture_loop_always_true]
    exact foldl_skip_failures capture_opencv_step capOk capture_opencv_step_skip rs m
  · intro m ps
    unfold capture_picamera2_loop capture_picamera2_run
    rw [capture_loop_always_true]
    exact foldl_skip_failures capture_picamera2_step picamOk capture_picamera2_step_skip ps m

/-- When the running flag reads true exactly for iteration indices below k,
the loop performs exactly the first k iterations and exits. -/
theorem capture_loop_cutoff {α : Type} (step : CameraManager → α → CameraManager) (k : Nat) :
    ∀ (rs : List α) (i : Nat) (m : CameraManager),
      capture_loop step (fun j => decide (j < k)) m rs i
        = (rs.take (k - i)).foldl step m := by
  intro rs
  induction rs with
  | nil => intro i m; simp [capture_loop]
  | cons r rest ih =>
    intro i m
    by_cases h : i < k
    · have h1 : capture_loop step (fun j => decide (j < k)) m (r :: rest) i
          = capture_loop step (fun j => decide (j < k)) (step m r) rest (i + 1) := by
        simp [capture_loop, h]
      have h2 : k - i = (k - (i + 1)) + 1 := by omega
      rw [h1, ih (i + 1) (step m r), h2, List.take_succ_cons, List.foldl_cons]
    · have h1 : capture_loop step (fun j => decide (j < k)) m (r :: rest) i = m := by
        simp [capture_loop, h]
      have h2 : k - i = 0 := by omega
      rw [h1, h2, List.take_zero, List.foldl_nil]

/-- C8: the acquisition loop reads `self.running` at the head of every
iteration, so with stop() having cleared the flag from iteration k on (the
iteration in progress when stop() runs is the last one that completes), the
loop equals the run over only the first k outcomes: no publish from any
later iteration ever reaches the buffer, and stop() itself only writes the
flag, so calling it mid-iteration is safe. -/
theorem c8_stop_halts_loop :
    (∀ m : CameraManager, (CameraManager.stop m).running = false)
    ∧ (∀ (k : Nat) (m : CameraManager) (rs : List CapResult),
        capture_opencv_loop (fun i => decide (i < k)) m rs 0
          = capture_opencv_run m (rs.take k)) := by
  constructor
  · intro m
    obtain ⟨r, c, f, n⟩ := m
    cases c <;> rfl
  · intro k m rs
    unfold capture_opencv_loop capture_opencv_run
    rw [capture_loop_cutoff, Nat.sub_zero]

/-- A sample timestamp string for concrete instances. -/
def tsText : String := "2026-01-01 00:00:00"

/-- When the buffer read came back empty, the frame sent to the encoder is the
black placeholder carrying the "Camera Not Available" overlay plus the
timestamp and robot-position overlays. -/
theorem processedFrame_none (inp : IterInput) (h : inp.buf = none) :
    processedFrame inp
      = putText (putText (putText blackFrame camNotAvailText) inp.timestamp)
          (posText inp.robot) := by
  unfold processedFrame
  rw [h]

/-- Placeholder geometry: 480 rows. -/
theorem processedFrame_none_rows (inp : IterInput) (h : inp.buf = none) :
    (processedFrame inp).rows = 480 := by
  rw [processedFrame_none inp h]; rfl

/-- Placeholder geometry: 640 columns. -/
theorem processedFrame_none_cols (inp : IterInput) (h : inp.buf = none) :
    (processedFrame inp).cols = 640 := by
  rw [processedFrame_none inp h]; rfl

/-- Encoding succeeds on any non-empty image. -/
theorem imencode_some (f : RawFrame) (h1 : 0 < f.rows) (h2 : 0 < f.cols) :
    imencode f = some (jpegBytes f) := by
  unfold imencode
  rw [if_pos ⟨h1, h2⟩]

/-- An iteration that read an empty buffer yields exactly one part: the
encoded placeholder. -/
theorem genIter_none_buf (inp : IterInput) (h : inp.buf = none) :
    genIter inp = some (mkPart (jpegBytes (processedFrame inp))) := by
  unfold genIter
  rw [imencode_some (processedFrame inp)
    (by rw [processedFrame_none_rows inp h]; decide)
    (by rw [processedFrame_none_cols inp h]; decide)]

/-- Over a run whose every buffer read is empty, the generator emits one
placeholder part per iteration. -/
theorem generate_frames_all_none : ∀ (inputs : List IterInput),
    (∀ inp ∈ inputs, inp.buf = none) →
    generate_frames inputs
      = inputs.map (fun inp => mkPart (jpegBytes (processedFrame inp))) := by
  intro inputs
  induction inputs with
  | nil => intro _; rfl
  | cons a rest ih =>
    intro h
    have ha : a.buf = none := h a (List.mem_cons_self a rest)
    have hrest : ∀ inp ∈ rest, inp.buf = none :=
      fun inp hi => h inp (List.mem_cons_of_mem a hi)
    simp only [generate_frames, List.filterMap_cons, genIter_none_buf a ha, List.map_cons]
    have htail := ih hrest
    simp only [generate_frames] at htail
    rw [htail]

/-- C3: when cv2.imencode returns ret == False, the `continue` at src/app.py
line 183 makes the iteration yield nothing and control passes to the next
iteration: the stream over a run containing the bad iteration equals the
stream over the same run without it, so a single bad frame never terminates
the stream.  The generator never writes the frame buffer, so the previously
published frame is still there for the following iterations. -/
theorem c3_encode_failure_skips_iteration (l1 l2 : List IterInput) (inp : IterInput)
    (h : imencode (processedFrame inp) = none) :
    genIter inp = none
    ∧ generate_frames (l1 ++ inp :: l2) = generate_frames (l1 ++ l2) := by
  have hg : genIter inp = none := by
    unfold genIter
    rw [h]
  refine ⟨hg, ?_⟩
  simp only [generate_frames, List.filterMap_append, List.filterMap_cons, hg]

/-- C3 witness: a published 0x0 array fails to encode; that iteration emits
nothing and the surrounding iterations are unaffected. -/
theorem c3_witness :
    imencode (processedFrame ⟨some ⟨0, 0, [], []⟩, tsText, robot_position⟩) = none
    ∧ (genIter ⟨some ⟨0, 0, [], []⟩, tsText, robot_position⟩ = none
       ∧ generate_frames
            ([(⟨some ⟨1, 1, [7], []⟩, tsText, robot_position⟩ : IterInput)]
              ++ (⟨some ⟨0, 0, [], []⟩, tsText, robot_position⟩ : IterInput)
                :: [(⟨some ⟨1, 1, [9], []⟩, tsText, robot_position⟩ : IterInput)])
          = generate_frames
              ([(⟨some ⟨1, 1, [7], []⟩, tsText, robot_position⟩ : IterInput)]
                ++ [(⟨some ⟨1, 1, [9], []⟩, tsText, robot_position⟩ : IterInput)])) :=
  ⟨by decide, c3_encode_failure_skips_iteration _ _ _ (by decide)⟩

/-- Drawing further text keeps earlier overlays on the image. -/
theorem mem_overlays_putText (f : RawFrame) (s t : String) (h : s ∈ f.overlays) :
    s ∈ (putText f t).overlays := by
  simp only [putText, List.mem_append]
  exact Or.inl h

/-- Drawing text puts it on the image. -/
theorem mem_overlays_putText_self (f : RawFrame) (s : String) :
    s ∈ (putText f s).overlays := by
  simp [putText]

/-- C4: on every iteration whose get_frame() returned None, the generator
builds the solid-black 640x480 placeholder, overlays "Camera Not Available"
(then the timestamp and robot position), encodes it successfully, and yields
exactly one well-formed part — one part per iteration, no exception and no
termination, for a whole run fed by a never-published buffer. -/
theorem c4_empty_buffer_placeholder (inputs : List IterInput)
    (h : ∀ inp ∈ inputs, inp.buf = none) :
    generate_frames inputs
        = inputs.map (fun inp => mkPart (jpegBytes (processedFrame inp)))
    ∧ (∀ inp ∈ inputs, (processedFrame inp).rows = 480
        ∧ (processedFrame inp).cols = 640
        ∧ (processedFrame inp).data = blackFrame.data
        ∧ camNotAvailText ∈ (processedFrame inp).overlays)
    ∧ blackFrame.data = List.replicate (480 * 640 * 3) 0 := by
  refine ⟨generate_frames_all_none inputs h, ?_, rfl⟩
  intro inp hi
  have hb := h inp hi
  refine ⟨processedFrame_none_rows inp hb, processedFrame_none_cols inp hb, ?_, ?_⟩
  · rw [processedFrame_none inp hb]; rfl
  · rw [processedFrame_none inp hb]
    exact mem_overlays_putText _ _ _
      (mem_overlays_putText _ _ _ (mem_overlays_putText_self blackFrame camNotAvailText))

/-- C4 witness: a one-iteration run over a buffer that was never published. -/
theorem c4_witness :
    (∀ inp ∈ [(⟨none, tsText, robot_position⟩ : IterInput)], inp.buf = none)
    ∧ (generate_frames [(⟨none, tsText, robot_position⟩ : IterInput)]
         = [(⟨none, tsText, robot_position⟩ : IterInput)].map
             (fun inp => mkPart (jpegBytes (processedFrame inp)))
       ∧ (∀ inp ∈ [(⟨none, tsText, robot_position⟩ : IterInput)],
            (processedFrame inp).rows = 480 ∧ (processedFrame inp).cols = 640
            ∧ (processedFrame inp).data = blackFrame.data
            ∧ camNotAvailText ∈ (processedFrame inp).overlays)
       ∧ blackFrame.data = List.replicate (480 * 640 * 3) 0) :=
  ⟨by decide, c4_empty_buffer_placeholder _ (by decide)⟩

/-- Every part splits into the boundary marker, CRLF, the Content-Type
header, CRLF, the blank line, the JPEG bytes, and a trailing CRLF. -/
theorem mkPart_decomp (jpeg : List Nat) :
    mkPart jpeg = strBytes boundaryText ++ strBytes crlfText ++ strBytes ctypeText
      ++ strBytes crlfText ++ strBytes crlfText ++ jpeg ++ strBytes crlfText := by
  have h : strBytes partHeadText
      = strBytes boundaryText ++ strBytes crlfText ++ strBytes ctypeText
        ++ strBytes crlfText ++ strBytes crlfText := by decide
  unfold mkPart
  rw [h]

/-- C6: every part either stream implementation yields is exactly the
boundary marker '--frame' + CRLF, the header 'Content-Type: image/jpeg' +
CRLF, a blank line, the JPEG bytes, and a trailing CRLF. -/
theorem c6_part_shape :
    (∀ (inputs : List IterInput) (p : List Nat), p ∈ generate_frames inputs →
        ∃ jpeg, p = strBytes boundaryText ++ strBytes crlfText ++ strBytes ctypeText
          ++ strBytes crlfText ++ strBytes crlfText ++ jpeg ++ strBytes crlfText)
    ∧ (∀ (frames : List (List Nat)) (p : List Nat),
        p ∈ SimpleCamStreamer.generate_frames frames →
        ∃ jpeg, p = strBytes boundaryText ++ strBytes crlfText ++ strBytes ctypeText
          ++ strBytes crlfText ++ strBytes crlfText ++ jpeg ++ strBytes crlfText) := by
  constructor
  · intro inputs p hp
    simp only [generate_frames, List.mem_filterMap] at hp
    obtain ⟨inp, hinp, hgen⟩ := hp
    unfold genIter at hgen
    cases henc : imencode (processedFrame inp) with
    | none => rw [henc] at hgen; exact absurd hgen (by simp)
    | some jpeg =>
      rw [henc] at hgen
      simp only [Option.some.injEq] at hgen
      exact ⟨jpeg, by rw [← hgen, mkPart_decomp]⟩
  · intro frames p hp
    simp only [SimpleCamStreamer.generate_frames, List.mem_map] at hp
    obtain ⟨f, hf, hfp⟩ := hp
    exact ⟨f, by rw [← hfp, mkPart_decomp]⟩

/-- C6 witness: concrete parts from both implementations. -/
theorem c6_witness :
    ((mkPart (jpegBytes (processedFrame ⟨none, tsText, robot_position⟩))
        ∈ generate_frames [(⟨none, tsText, robot_position⟩ : IterInput)])
      ∧ ∃ jpeg, mkPart (jpegBytes (processedFrame ⟨none, tsText, robot_position⟩))
          = strBytes boundaryText ++ strBytes crlfText ++ strBytes ctypeText
            ++ strBytes crlfText ++ strBytes crlfText ++ jpeg ++ strBytes crlfText)
    ∧ ((mkPart [1, 2, 3] ∈ SimpleCamStreamer.generate_frames [[1, 2, 3]])
      ∧ ∃ jpeg, mkPart [1, 2, 3]
          = strBytes boundaryText ++ strBytes crlfText ++ strBytes ctypeText
            ++ strBytes crlfText ++ strBytes crlfText ++ jpeg ++ strBytes crlfText) := by
  have hmem : mkPart (jpegBytes (processedFrame ⟨none, tsText, robot_position⟩))
      ∈ generate_frames [(⟨none, tsText, robot_position⟩ : IterInput)] := by
    have h : generate_frames [(⟨none, tsText, robot_position⟩ : IterInput)]
        = [mkPart (jpegBytes (processedFrame ⟨none, tsText, robot_position⟩))] := rfl
    rw [h]
    exact List.mem_singleton.mpr rfl
  have hmem2 : mkPart [1, 2, 3] ∈ SimpleCamStreamer.generate_frames [[1, 2, 3]] :=
    List.mem_singleton.mpr rfl
  exact ⟨⟨hmem, c6_part_shape.1 _ _ hmem⟩, ⟨hmem2, c6_part_shape.2 _ _ hmem2⟩⟩

instance (p : RobotPosition) : Decidable (inBounds p) := by
  unfold inBounds
  infer_instance

/-- max(0, min(100, v)) lands in [0, 100]. -/
theorem clamp_mem (v : Int) : 0 ≤ clamp v ∧ clamp v ≤ 100 := by
  unfold clamp
  refine ⟨le_max_left 0 _, max_le (by norm_num) ?_⟩
  exact le_trans (min_le_left 100 v) (by norm_num)

/-- C9: the robot position starts at (50, 50) and every /api/robot/control
request preserves 0 ≤ x ≤ 100 and 0 ≤ y ≤ 100: a 'move' clamps each supplied
coordinate with max(0, min(100, ·)) before storing it — even out-of-range
values land in bounds — and every other path (unknown command, bad body,
TypeError mid-move) stores nothing out of bounds. -/
theorem c9_position_invariant :
    inBounds robot_position
    ∧ ∀ (pos : RobotPosition) (r : ReqBody),
        inBounds pos → inBounds (control_robot pos r).pos := by
  constructor
  · decide
  · intro pos r hpos
    cases r with
    | badJson => exact hpos
    | req rq =>
      simp only [control_robot]
      by_cases hm : isMove rq.command = true
      · rw [if_pos hm]
        rcases hpos with ⟨hx0, hx1, hy0, hy1⟩
        cases hx : rq.x.getD (JVal.num 50) with
        | num xn =>
          cases hy : rq.y.getD (JVal.num 50) with
          | num yn =>
            exact ⟨(clamp_mem xn).1, (clamp_mem xn).2, (clamp_mem yn).1, (clamp_mem yn).2⟩
          | str s => exact ⟨(clamp_mem xn).1, (clamp_mem xn).2, hy0, hy1⟩
          | other => exact ⟨(clamp_mem xn).1, (clamp_mem xn).2, hy0, hy1⟩
        | str s =>
          cases hy : rq.y.getD (JVal.num 50) with
          | num yn => exact ⟨hx0, hx1, hy0, hy1⟩
          | str t => exact ⟨hx0, hx1, hy0, hy1⟩
          | other => exact ⟨hx0, hx1, hy0, hy1⟩
        | other =>
          cases hy : rq.y.getD (JVal.num 50) with
          | num yn => exact ⟨hx0, hx1, hy0, hy1⟩
          | str t => exact ⟨hx0, hx1, hy0, hy1⟩
          | other => exact ⟨hx0, hx1, hy0, hy1⟩
      · rw [if_neg hm]
        exact hpos

/-- C9 witness: a wildly out-of-range move from the initial position. -/
theorem c9_witness :
    inBounds robot_position
    ∧ inBounds (control_robot robot_position
        (ReqBody.req ⟨some (JVal.str moveText), some (JVal.num 700),
          some (JVal.num (-3))⟩)).pos :=
  ⟨c9_position_invariant.1,
   c9_position_invariant.2 robot_position _ (by decide)⟩

/-- C10 counterexample: the request body with a 'move' command, a numeric x
and a non-numeric y is answered with HTTP 500 and success false, yet the
robot position has changed: `robot_position['x'] = max(0, min(100, x))` at
src/app.py line 254 runs before the TypeError raised while clamping y at
line 255, so x is already updated when the except-branch replies — the
handler is not error-atomic. -/
theorem c10_cex_partial_move_update :
    (control_robot robot_position
        (ReqBody.req ⟨some (JVal.str moveText), some (JVal.num 70),
          some JVal.other⟩)).status = 500
    ∧ (control_robot robot_position
        (ReqBody.req ⟨some (JVal.str moveText), some (JVal.num 70),
          some JVal.other⟩)).success = false
    ∧ ¬ (control_robot robot_position
        (ReqBody.req ⟨some (JVal.str moveText), some (JVal.num 70),
          some JVal.other⟩)).pos = robot_position := by
  decide

/-- C10 amended: a command other than 'move' is answered 400 / success false
with the position untouched; an unusable body (unparseable JSON or a non-dict)
raises before anything else and is answered 500 with the position untouched;
a 'move' whose x value is non-numeric raises while clamping x, before any
assignment, and is answered 500 with the position untouched; but a 'move'
whose x is numeric and whose y is non-numeric is answered 500 with success
false only after the x coordinate has been updated to its clamped value —
error atomicity holds on every error path except that last one. -/
theorem c10_amended_error_paths :
    (∀ pos : RobotPosition,
        control_robot pos ReqBody.badJson = ⟨pos, 500, false⟩)
    ∧ (∀ (pos : RobotPosition) (rq : ControlRequest), isMove rq.command = false →
        control_robot pos (ReqBody.req rq) = ⟨pos, 400, false⟩)
    ∧ (∀ (pos : RobotPosition) (rq : ControlRequest), isMove rq.command = true →
        isNum (rq.x.getD (JVal.num 50)) = false →
        control_robot pos (ReqBody.req rq) = ⟨pos, 500, false⟩)
    ∧ (∀ (pos : RobotPosition) (rq : ControlRequest) (xn : Int),
        isMove rq.command = true →
        rq.x.getD (JVal.num 50) = JVal.num xn →
        isNum (rq.y.getD (JVal.num 50)) = false →
        control_robot pos (ReqBody.req rq) = ⟨⟨clamp xn, pos.y⟩, 500, false⟩) := by
  refine ⟨fun pos => rfl, ?_, ?_, ?_⟩
  · intro pos rq h
    simp only [control_robot]
    rw [if_neg (by rw [h]; exact Bool.false_ne_true)]
  · intro pos rq hm hx
    simp only [control_robot]
    rw [if_pos hm]
    cases hxe : rq.x.getD (JVal.num 50) with
    | num n => rw [hxe] at hx; simp [isNum] at hx
    | str s =>
      cases hye : rq.y.getD (JVal.num 50) with
      | num n => rfl
      | str t => rfl
      | other => rfl
    | other =>
      cases hye : rq.y.getD (JVal.num 50) with
      | num n => rfl
      | str t => rfl
      | other => rfl
  · intro pos rq xn hm hx hy
    simp only [control_robot]
    rw [if_pos hm, hx]
    cases hye : rq.y.getD (JVal.num 50) with
    | num n => rw [hye] at hy; simp [isNum] at hy
    | str t => rfl
    | other => rfl

/-- C10 amended, concrete witnesses for all four error paths. -/
theorem c10_amended_witness :
    (control_robot robot_position ReqBody.badJson = ⟨robot_position, 500, false⟩)
    ∧ (isMove (ControlRequest.mk (some JVal.other) none none).command = false
       ∧ control_robot robot_position
            (ReqBody.req (ControlRequest.mk (some JVal.other) none none))
          = ⟨robot_position, 400, false⟩)
    ∧ (isMove (ControlRequest.mk (some (JVal.str moveText)) (some JVal.other)
          none).command = true
       ∧ isNum ((ControlRequest.mk (some (JVal.str moveText)) (some JVal.other)
          none).x.getD (JVal.num 50)) = false
       ∧ control_robot robot_position
            (ReqBody.req (ControlRequest.mk (some (JVal.str moveText))
              (some JVal.other) none))
          = ⟨robot_position, 500, false⟩)
    ∧ (isMove (ControlRequest.mk (some (JVal.str moveText)) (some (JVal.num 70))
          (some JVal.other)).command = true
       ∧ (ControlRequest.mk (some (JVal.str moveText)) (some (JVal.num 70))
          (some JVal.other)).x.getD (JVal.num 50) = JVal.num 70
       ∧ isNum ((ControlRequest.mk (some (JVal.str moveText)) (some (JVal.num 70))
          (some JVal.other)).y.getD (JVal.num 50)) = false
       ∧ control_robot robot_position
            (ReqBody.req (ControlRequest.mk (some (JVal.str moveText))
              (some (JVal.num 70)) (some JVal.other)))
          = ⟨⟨clamp 70, robot_position.y⟩, 500, false⟩) :=
  ⟨c10_amended_error_paths.1 robot_position,
   ⟨by decide, c10_amended_error_paths.2.1 robot_position _ (by decide)⟩,
   ⟨by decide, by decide,
    c10_amended_error_paths.2.2.1 robot_position _ (by decide) (by decide)⟩,
   ⟨by decide, by decide, by decide,
    c10_amended_error_paths.2.2.2 robot_position _ 70 (by decide) (by decide) (by decide)⟩⟩
